import Mathlib

/-!
Verification of the statigo HTTP response cache: the serve/record middleware
(`framework/middleware/cache.go`), the response recorder, the webhook
invalidation handler (`internal/handlers/webhook.go`) and the `clear-cache`
CLI command (`framework/cli/commands.go`).

The `framework/cache` package itself (Manager, Entry internals) is not part
of the sources; the few accessors the middleware calls on it are modelled
from the spec and carry a `Modelled from the spec:` doc comment.  I/O is
modelled failure-free except where a claim quantifies over a failure
(`cacheManager.Set`), whose result is an explicit input.
-/

namespace Statigo

/-- Bytes are modelled as natural numbers; a body is a list of bytes. -/
abbrev Bytes := List Nat

/-- Operations a handler performs against an `http.ResponseWriter` or the
`responseRecorder`: `WriteHeader(statusCode)` and `Write(bytes)`. -/
inductive RecOp where
  | writeHeader (statusCode : Nat)
  | write (bytes : Bytes)
  deriving Repr, DecidableEq

/-- State of `responseRecorder` (middleware/cache.go): the buffered body, the
recorded status code and the `wroteHeader` flag. -/
structure RecState where
  statusCode : Nat
  wroteHeader : Bool
  body : Bytes
  deriving Repr, DecidableEq

/-- Initial recorder state as constructed by `CacheMiddleware`:
`statusCode: http.StatusOK`, empty buffer. -/
def recInit : RecState :=
  { statusCode := 200, wroteHeader := false, body := [] }

/-- One recorder step, transcribed from `responseRecorder.WriteHeader` and
`responseRecorder.Write`. -/
def recStep (s : RecState) : RecOp → RecState
  | .writeHeader sc =>
      if s.wroteHeader then s
      else { s with statusCode := sc, wroteHeader := true }
  | .write b =>
      { s with wroteHeader := true, body := s.body ++ b }

/-- Run a whole sequence of handler operations against a fresh recorder. -/
def recRun (ops : List RecOp) : RecState :=
  ops.foldl recStep recInit

/-- Payload contributed by one operation to the recorded body. -/
def recOpBytes : RecOp → Bytes
  | .writeHeader _ => []
  | .write b => b

/-- Go `strings.Split(s, ",")` over the character list of `s`: split at every
comma, keeping empty fields (splitting the empty string yields one empty
field). -/
def splitOnCommaChars : List Char → List (List Char)
  | [] => [[]]
  | c :: rest =>
      let r := splitOnCommaChars rest
      if c = ',' then [] :: r
      else
        match r with
        | [] => [[c]]
        | h :: t => (c :: h) :: t

/-- Go `strings.TrimSpace` over a character list: drop leading and trailing
whitespace. -/
def trimSpaceChars (cs : List Char) : List Char :=
  ((cs.dropWhile Char.isWhitespace).reverse.dropWhile Char.isWhitespace).reverse

/-- Transcribed from `etagMatch` (middleware/cache.go): the If-None-Match
header matches when it is `*` or one of its comma-separated elements,
whitespace-trimmed, equals the ETag exactly. -/
def etagMatch (ifNoneMatch etag : String) : Bool :=
  if ifNoneMatch = "" then false
  else if ifNoneMatch = "*" then true
  else (splitOnCommaChars ifNoneMatch.data).any
        (fun candidate => trimSpaceChars candidate == etag.data)

/-- Modelled from the spec: a cache entry as the middleware observes it (the
`cache` package is not in the sources).  `etag` is the short digest stored in
`Entry.ETag` (without the `W/"..."` framing), `stale` the invalidator flag,
`payload` the raw payload bytes. -/
structure Entry where
  etag : String
  stale : Bool
  payload : Bytes
  deriving Repr, DecidableEq

/-- Modelled from the spec: `Entry.IsStale` reports the flag flipped by the
Invalidator ("an entry is stale iff the Invalidator has flipped its stale
flag since the last successful rebuild"). -/
def Entry.IsStale (e : Entry) : Bool := e.stale

/-- Modelled from the spec: `cache.GetDecompressedContent` returns the raw
payload bytes of an entry (round-trip law `store.put(k, p); store.get(k).body
== p` modulo transparent decompression); the failure-free I/O model never
returns the error branch the middleware guards against. -/
def GetDecompressedContent (e : Entry) : Except String Bytes :=
  .ok e.payload

/-- Inputs of one `CacheMiddleware` request: the request data, the
request-scoped context values, the result of every collaborator call the
middleware makes (`cacheManager.Get`, the handler's writes, the result of
`cacheManager.Set`, and the re-`Get` after a successful `Set`). -/
structure MWInput where
  method : String
  canonical : String
  strategy : String
  ifNoneMatch : String
  lookup : Option Entry
  handlerOps : List RecOp
  setResult : Except String Unit
  reGet : Option Entry
  deriving Repr

/-- Observable outcome of one `CacheMiddleware` request: status and body the
client receives, the headers set by the cache middleware itself,
whether `next.ServeHTTP` ran on the request path, and the bytes passed to
`cacheManager.Set` when it was invoked. -/
structure MWOutput where
  status : Nat
  body : Bytes
  headers : List (String × String)
  originOnPath : Bool
  setArg : Option Bytes
  deriving Repr, DecidableEq

/-- Pass-through: `next.ServeHTTP(w, r)` runs directly against the client
writer, whose first-write-header-wins semantics the recorder fold shares; the
middleware sets no headers and does not touch the cache. -/
def passThroughOut (ops : List RecOp) : MWOutput :=
  let s := recRun ops
  { status := s.statusCode, body := s.body, headers := [],
    originOnPath := true, setArg := none }

/-- Miss-or-stale branch of `CacheMiddleware` (middleware/cache.go, after the
fresh-hit block): bypass for empty or `dynamic` strategy, otherwise run the
handler into a recorder, call `cacheManager.Set` whenever the recorded status
is 200, set the ETag header when the `Set` succeeded and the re-`Get` finds
the entry, and finally deliver the recorded status and body. -/
def missPath (i : MWInput) : MWOutput :=
  if i.strategy = "" ∨ i.strategy = "dynamic" then
    passThroughOut i.handlerOps
  else
    let st := recRun i.handlerOps
    if st.statusCode = 200 then
      let hdrs :=
        match i.setResult with
        | .error _ => []
        | .ok _ =>
          match i.reGet with
          | some cachedEntry =>
              [("ETag", "W/\"" ++ cachedEntry.etag ++ "\""),
               ("Cache-Control", "no-cache")]
          | none => []
      { status := st.statusCode, body := st.body, headers := hdrs,
        originOnPath := true, setArg := some st.body }
    else
      { status := st.statusCode, body := st.body, headers := [],
        originOnPath := true, setArg := none }

/-- Transcribed from `CacheMiddleware` (middleware/cache.go): non-GET and
requests without a canonical path pass through; a fresh hit answers 304 on an
ETag match and otherwise serves the decompressed payload with `X-Cache: HIT`;
everything else goes to the miss-or-stale branch. -/
def CacheMiddleware (i : MWInput) : MWOutput :=
  if i.method ≠ "GET" then passThroughOut i.handlerOps
  else if i.canonical = "" then passThroughOut i.handlerOps
  else
    match i.lookup with
    | some entry =>
      if ¬ entry.IsStale then
        let etag := "W/\"" ++ entry.etag ++ "\""
        if etagMatch i.ifNoneMatch etag then
          { status := 304, body := [],
            headers := [("ETag", etag), ("Cache-Control", "no-cache")],
            originOnPath := false, setArg := none }
        else
          match GetDecompressedContent entry with
          | .error _ => passThroughOut i.handlerOps
          | .ok content =>
            { status := 200, body := content,
              headers := [("Content-Type", "text/html; charset=utf-8"),
                          ("X-Cache", "HIT"), ("ETag", etag),
                          ("Cache-Control", "no-cache")],
              originOnPath := false, setArg := none }
      else missPath i
    | none => missPath i

/-- A request sits on the cache-miss path: a GET with a canonical path and a
cacheable strategy whose key is absent from the cache. -/
def onMissPath (i : MWInput) : Prop :=
  i.method = "GET" ∧ i.canonical ≠ "" ∧ i.lookup = none ∧
  i.strategy ≠ "" ∧ i.strategy ≠ "dynamic"

instance (i : MWInput) : Decidable (onMissPath i) := by
  unfold onMissPath
  infer_instance

/-- Metadata of one cache entry as the invalidator sees it: its strategy tag
and staleness flag. -/
structure CacheEntry where
  strategy : String
  stale : Bool
  deriving Repr, DecidableEq

/-- Predicate selecting the entries touched by `MarkStale(strategy, flag)`. -/
def markStaleHits (strategy : String) (includeIncremental : Bool)
    (e : CacheEntry) : Bool :=
  e.strategy == strategy || (includeIncremental && e.strategy == "incremental")

/-- Modelled from the spec: `cache.Manager.MarkStale` (the `cache` package is
not in the sources).  Spec 4.7 fixes the effect of the webhook's
`MarkStale("static", true)` call: flip `stale := true` on every entry whose
strategy is `static` or `incremental`, leaving the others alone; the second
argument is modelled as including `incremental` entries.  Returns the new
entry list and the number of entries touched. -/
def MarkStale (entries : List CacheEntry) (strategy : String)
    (includeIncremental : Bool) : List CacheEntry × Nat :=
  (entries.map (fun e =>
      if markStaleHits strategy includeIncremental e then
        { e with stale := true }
      else e),
   (entries.filter (markStaleHits strategy includeIncremental)).length)

/-- Modelled from the spec: `cache.Manager.MarkAllStale` flips `stale` on
every entry regardless of strategy, `immutable` included (spec 4.7, the
`keyvalue` and `cms` rows).  The boolean argument concerns persistence, which
the failure-free model does not track. -/
def MarkAllStale (entries : List CacheEntry) (_persist : Bool) :
    List CacheEntry × Nat :=
  (entries.map (fun e => { e with stale := true }), entries.length)

/-- Webhook payload fields the handler inspects (internal/handlers/webhook.go). -/
structure WebhookPayload where
  event : String
  entity : String
  action : String
  deriving Repr, DecidableEq

/-- Body of the webhook handler's HTTP response: nothing (405), the
`invalid payload` JSON error object (400), or the success JSON object with
the invalidation count. -/
inductive WebhookBody where
  | empty
  | invalidPayload
  | success (invalidated : Nat)
  deriving Repr, DecidableEq

/-- Observable outcome of one webhook request: response status and body, the
cache entries after the handler ran, and whether the views cache was
invalidated. -/
structure WebhookResult where
  status : Nat
  body : WebhookBody
  entries : List CacheEntry
  viewsInvalidated : Bool
  deriving Repr, DecidableEq

/-- Transcribed from `WebhookHandler.Handle` (internal/handlers/webhook.go).
The JSON decode outcome is an input: `none` stands for a body that fails to
decode.  Non-POST requests answer 405; a decode failure answers 400 with the
`invalid payload` error; otherwise the entity switch drives the invalidation
and the handler answers 200 with the count. -/
def Handle (method : String) (payload : Option WebhookPayload)
    (entries : List CacheEntry) : WebhookResult :=
  if method ≠ "POST" then
    { status := 405, body := .empty, entries := entries,
      viewsInvalidated := false }
  else
    match payload with
    | none =>
      { status := 400, body := .invalidPayload, entries := entries,
        viewsInvalidated := false }
    | some p =>
      if p.entity = "post" then
        let r := MarkStale entries "static" true
        { status := 200, body := .success r.2, entries := r.1,
          viewsInvalidated := true }
      else if p.entity = "category" ∨ p.entity = "tag" then
        let r := MarkStale entries "static" true
        { status := 200, body := .success r.2, entries := r.1,
          viewsInvalidated := false }
      else if p.entity = "author" then
        let r := MarkStale entries "static" true
        { status := 200, body := .success r.2, entries := r.1,
          viewsInvalidated := false }
      else if p.entity = "keyvalue" then
        let r := MarkAllStale entries true
        { status := 200, body := .success r.2, entries := r.1,
          viewsInvalidated := false }
      else if p.entity = "cms" then
        let r := MarkAllStale entries true
        { status := 200, body := .success r.2, entries := r.1,
          viewsInvalidated := true }
      else
        { status := 200, body := .success 0, entries := entries,
          viewsInvalidated := false }

/-- State visible to the `clear-cache` command: whether the cache directory
exists, the entry files below it, and the process-wide in-memory cache
Index (which the command's configuration does not reference). -/
structure ClearCacheState where
  dirExists : Bool
  files : List String
  index : List CacheEntry
  deriving Repr, DecidableEq

/-- Transcribed from `NewClearCacheCommand`'s `Run`
(framework/cli/commands.go) in the failure-free I/O model: a missing cache
directory is "nothing to clear"; otherwise the files are counted and every
path below the directory is removed (`filepath.Walk` + `os.RemoveAll`).  The
command's configuration carries only the cache directory and a logger, so
the in-memory Index is left untouched. -/
def clearCacheRun (s : ClearCacheState) : Except String Nat × ClearCacheState :=
  if ¬ s.dirExists then
    (.ok 0, s)
  else
    let count := s.files.length
    (.ok count, { s with files := [] })

/-- Statement of claim C1 following the spec's words: a GET hitting a stale
entry under the `incremental` strategy is served the stale cached bytes with
the origin handler not running on the request path. -/
def C1spec (i : MWInput) : Prop :=
  i.method = "GET" → i.canonical ≠ "" → i.strategy = "incremental" →
  ∀ e : Entry, i.lookup = some e → e.stale = true →
    (CacheMiddleware i).body = e.payload ∧
    (CacheMiddleware i).originOnPath = false

/-- Concrete request refuting C1: a stale incremental entry holding `old`
while the origin handler writes `new`. -/
def c1Input : MWInput :=
  { method := "GET", canonical := "/a", strategy := "incremental",
    ifNoneMatch := "",
    lookup := some { etag := "d1", stale := true, payload := [111, 108, 100] },
    handlerOps := [.writeHeader 200, .write [110, 101, 119]],
    setResult := .ok (),
    reGet := some { etag := "d2", stale := false, payload := [110, 101, 119] } }

/-- Statement of claim C2 following the spec's words: on the cache-miss path,
Set is invoked with the buffered bytes exactly when the recorded status is
200 and the recorded body is non-empty. -/
def C2spec (i : MWInput) : Prop :=
  onMissPath i →
    ((CacheMiddleware i).setArg = some (recRun i.handlerOps).body ↔
      ((recRun i.handlerOps).statusCode = 200 ∧ (recRun i.handlerOps).body ≠ []))

/-- Concrete request refuting C2: a miss whose handler writes nothing, so the
recorded response is a 200 with an empty body. -/
def c2Input : MWInput :=
  { method := "GET", canonical := "/a", strategy := "static", ifNoneMatch := "",
    lookup := none, handlerOps := [], setResult := .ok (), reGet := none }

/-- Entry used by the C3 witness. -/
def c3wEntry : Entry :=
  { etag := "d", stale := false, payload := [104, 105] }

/-- Concrete fresh-hit request used by the C3 witness, sending the matching
weak ETag in If-None-Match. -/
def c3wInput : MWInput :=
  { method := "GET", canonical := "/a", strategy := "static",
    ifNoneMatch := "W/\"d\"", lookup := some c3wEntry,
    handlerOps := [], setResult := .ok (), reGet := none }

/-- Payload used by the C4 witness. -/
def c4wPayload : WebhookPayload :=
  { event := "updated", entity := "post", action := "update" }

/-- Entry list used by the C4 witness: one entry per cacheable strategy. -/
def c4wEntries : List CacheEntry :=
  [{ strategy := "static", stale := false },
   { strategy := "incremental", stale := false },
   { strategy := "immutable", stale := false }]

/-- Statement of claim C5 following the spec's words, restricted to the
outcomes the middleware can reach: a cached miss-path response carries
`X-Cache: MISS` and a fresh-hit 200 carries `X-Cache: HIT`. -/
def C5spec (i : MWInput) : Prop :=
  (onMissPath i → (CacheMiddleware i).setArg.isSome = true →
     ("X-Cache", "MISS") ∈ (CacheMiddleware i).headers) ∧
  (∀ e : Entry, i.method = "GET" → i.canonical ≠ "" → i.lookup = some e →
     e.stale = false →
     etagMatch i.ifNoneMatch ("W/\"" ++ e.etag ++ "\"") = false →
     ("X-Cache", "HIT") ∈ (CacheMiddleware i).headers)

/-- Concrete request refuting C5: a cached miss (handler answers 200 `hi`,
the store accepts it) whose response carries no X-Cache header at all. -/
def c5Input : MWInput :=
  { method := "GET", canonical := "/a", strategy := "static", ifNoneMatch := "",
    lookup := none, handlerOps := [.write [104, 105]], setResult := .ok (),
    reGet := some { etag := "d", stale := false, payload := [104, 105] } }

/-- Entry used by the C5 witness on the fresh-hit side. -/
def c5wEntry : Entry :=
  { etag := "d", stale := false, payload := [104, 105] }

/-- Concrete fresh-hit request used by the C5 witness. -/
def c5wInput : MWInput :=
  { method := "GET", canonical := "/a", strategy := "static", ifNoneMatch := "",
    lookup := some c5wEntry, handlerOps := [], setResult := .ok (),
    reGet := none }

/-- Concrete fresh-hit request answered 304, used by the C5 witness: the
If-None-Match header carries exactly the entry's weak ETag. -/
def c5w304Input : MWInput :=
  { method := "GET", canonical := "/a", strategy := "static",
    ifNoneMatch := "W/\"d\"", lookup := some c5wEntry, handlerOps := [],
    setResult := .ok (), reGet := none }

/-- Concrete miss request used by the C6 witness; the store write fails. -/
def c6wInput : MWInput :=
  { method := "GET", canonical := "/a", strategy := "static", ifNoneMatch := "",
    lookup := none, handlerOps := [.writeHeader 200, .write [104, 105]],
    setResult := .error "disk full", reGet := none }

/-- Statement of claim C7 following the spec's words: a successful
clear-cache run leaves no entry files and an empty in-memory Index. -/
def C7spec (s : ClearCacheState) : Prop :=
  ∀ n : Nat, (clearCacheRun s).1 = .ok n →
    (clearCacheRun s).2.files = [] ∧ (clearCacheRun s).2.index = []

/-- Concrete state refuting C7: one entry file on disk and one entry in the
in-memory Index. -/
def c7Input : ClearCacheState :=
  { dirExists := true, files := ["a.body"],
    index := [{ strategy := "static", stale := false }] }

/-- Statement of claim C8 following the spec's words: some configured cap
bounds the recorder's buffered body, and any response whose body exceeds the
cap is passed through uncached. -/
def C8spec : Prop :=
  ∃ cap : Nat,
    (∀ ops : List RecOp, (recRun ops).body.length ≤ cap) ∧
    (∀ i : MWInput, onMissPath i → cap < (recRun i.handlerOps).body.length →
        (CacheMiddleware i).setArg = none)

/-- Concrete miss request used by the C8 witness. -/
def c8wInput : MWInput :=
  { method := "GET", canonical := "/a", strategy := "static", ifNoneMatch := "",
    lookup := none, handlerOps := [.write [104], .write [105]],
    setResult := .ok (), reGet := none }

/-- Payload used by the C9 witness. -/
def c9wPayload : WebhookPayload :=
  { event := "updated", entity := "post", action := "update" }

/-- Entry list used by the C9 witness. -/
def c9wEntries : List CacheEntry :=
  [{ strategy := "static", stale := false },
   { strategy := "immutable", stale := false }]

/-! Helper lemmas shared by the claim theorems. -/

/-- Once the recorder has written its header, a step never changes the
recorded status code and the flag stays set. -/
theorem recStep_of_wroteHeader (s : RecState) (op : RecOp)
    (h : s.wroteHeader = true) :
    (recStep s op).statusCode = s.statusCode ∧
    (recStep s op).wroteHeader = true := by
  cases op <;> simp [recStep, h]

/-- Folding further operations over a recorder that already wrote its header
never changes the status code. -/
theorem recFoldl_statusCode (ops : List RecOp) (s : RecState)
    (h : s.wroteHeader = true) :
    (ops.foldl recStep s).statusCode = s.statusCode := by
  induction ops generalizing s with
  | nil => rfl
  | cons op rest ih =>
      obtain ⟨h1, h2⟩ := recStep_of_wroteHeader s op h
      simpa [List.foldl_cons, ih (recStep s op) h2] using h1

/-- The recorder body accumulates exactly the written payloads, in order. -/
theorem recFoldl_body (ops : List RecOp) (s : RecState) :
    (ops.foldl recStep s).body = s.body ++ (ops.map recOpBytes).flatten := by
  induction ops generalizing s with
  | nil => simp
  | cons op rest ih =>
      rw [List.foldl_cons, ih (recStep s op)]
      cases op with
      | writeHeader sc =>
          by_cases hw : s.wroteHeader = true <;> simp [recStep, recOpBytes, hw]
      | write b => simp [recStep, recOpBytes]

/-- Characterisation of the miss-or-stale branch for a cacheable strategy:
the origin handler runs on the request path, the recorded status and body are
delivered, and Set is invoked with the buffered body exactly on a recorded
200. -/
theorem missPath_spec (i : MWInput) (hs1 : i.strategy ≠ "")
    (hs2 : i.strategy ≠ "dynamic") :
    (missPath i).originOnPath = true ∧
    (missPath i).status = (recRun i.handlerOps).statusCode ∧
    (missPath i).body = (recRun i.handlerOps).body ∧
    (missPath i).setArg =
      (if (recRun i.handlerOps).statusCode = 200
       then some (recRun i.handlerOps).body else none) := by
  have h : ¬ (i.strategy = "" ∨ i.strategy = "dynamic") := by
    rintro (h | h)
    · exact hs1 h
    · exact hs2 h
  unfold missPath
  rw [if_neg h]
  by_cases h200 : (recRun i.handlerOps).statusCode = 200 <;> simp [h200]

/-- The miss-or-stale branch never emits an X-Cache header. -/
theorem missPath_no_xcache (i : MWInput) (v : String) :
    ("X-Cache", v) ∉ (missPath i).headers := by
  unfold missPath passThroughOut
  by_cases h : i.strategy = "" ∨ i.strategy = "dynamic"
  · simp [h]
  · rw [if_neg h]
    by_cases h200 : (recRun i.handlerOps).statusCode = 200
    · simp only [h200, if_true]
      cases i.setResult with
      | error e => simp
      | ok u =>
          cases i.reGet with
          | none => simp
          | some e2 => simp
    · simp [h200]

/-- A stale hit falls through to the miss-or-stale branch. -/
theorem cacheMiddleware_stale (i : MWInput) (e : Entry)
    (hm : i.method = "GET") (hc : i.canonical ≠ "")
    (hl : i.lookup = some e) (hstale : e.stale = true) :
    CacheMiddleware i = missPath i := by
  unfold CacheMiddleware
  rw [if_neg (by simp [hm]), if_neg hc, hl]
  simp [Entry.IsStale, hstale]

/-- A miss falls through to the miss-or-stale branch. -/
theorem cacheMiddleware_miss (i : MWInput)
    (hm : i.method = "GET") (hc : i.canonical ≠ "")
    (hl : i.lookup = none) :
    CacheMiddleware i = missPath i := by
  unfold CacheMiddleware
  rw [if_neg (by simp [hm]), if_neg hc, hl]

/-- A fresh hit answers 304 on an ETag match and serves the payload with
`X-Cache: HIT` otherwise. -/
theorem cacheMiddleware_fresh (i : MWInput) (e : Entry)
    (hm : i.method = "GET") (hc : i.canonical ≠ "")
    (hl : i.lookup = some e) (hfresh : e.stale = false) :
    CacheMiddleware i =
      (if etagMatch i.ifNoneMatch ("W/\"" ++ e.etag ++ "\"") then
        { status := 304, body := [],
          headers := [("ETag", "W/\"" ++ e.etag ++ "\""),
                      ("Cache-Control", "no-cache")],
          originOnPath := false, setArg := none }
      else
        { status := 200, body := e.payload,
          headers := [("Content-Type", "text/html; charset=utf-8"),
                      ("X-Cache", "HIT"), ("ETag", "W/\"" ++ e.etag ++ "\""),
                      ("Cache-Control", "no-cache")],
          originOnPath := false, setArg := none }) := by
  unfold CacheMiddleware
  rw [if_neg (by simp [hm]), if_neg hc, hl]
  simp [Entry.IsStale, hfresh, GetDecompressedContent]

/-- An X-Cache header can only come out of the fresh-hit serving branch: its
value is HIT and the request is a GET with a canonical path hitting a fresh
entry whose ETag did not match. -/
theorem xcache_member_fresh_serve (i : MWInput) (v : String)
    (h : ("X-Cache", v) ∈ (CacheMiddleware i).headers) :
    v = "HIT" ∧ i.method = "GET" ∧ i.canonical ≠ "" ∧
    ∃ e, i.lookup = some e ∧ e.stale = false ∧
      etagMatch i.ifNoneMatch ("W/\"" ++ e.etag ++ "\"") = false := by
  by_cases hm : i.method = "GET"
  · by_cases hc : i.canonical = ""
    · exfalso
      unfold CacheMiddleware at h
      rw [if_neg (by simp [hm]), if_pos hc] at h
      simp [passThroughOut] at h
    · cases hl : i.lookup with
      | none =>
          exact absurd (by rwa [cacheMiddleware_miss i hm hc hl] at h)
            (missPath_no_xcache i v)
      | some e =>
          cases hstale : e.stale with
          | true =>
              exact absurd (by rwa [cacheMiddleware_stale i e hm hc hl hstale] at h)
                (missPath_no_xcache i v)
          | false =>
              rw [cacheMiddleware_fresh i e hm hc hl hstale] at h
              by_cases hmatch :
                  etagMatch i.ifNoneMatch ("W/\"" ++ e.etag ++ "\"") = true
              · rw [if_pos hmatch] at h
                exfalso
                simp at h
              · rw [if_neg hmatch] at h
                have hv : v = "HIT" := by simpa using h
                exact ⟨hv, hm, hc, e, rfl, hstale, by simpa using hmatch⟩
  · exfalso
    unfold CacheMiddleware at h
    rw [if_pos (by simpa using hm)] at h
    simp [passThroughOut] at h

/-- The weak ETag string decomposes into an explicit non-empty character
list. -/
theorem wtag_data (d : String) :
    ("W/\"" ++ d ++ "\"").data = 'W' :: '/' :: '"' :: (d.data ++ ['"']) := by
  simp [String.data_append]

/-- The middleware's `etagMatch` agrees with the spec's reading: the header
is `*`, or one of its comma-separated elements, whitespace-trimmed, equals
the weak ETag exactly. -/
theorem etagMatch_eq_spec (inm d : String) :
    etagMatch inm ("W/\"" ++ d ++ "\"") = true ↔
      (inm = "*" ∨ ∃ cs ∈ splitOnCommaChars inm.data,
          trimSpaceChars cs = ("W/\"" ++ d ++ "\"").data) := by
  unfold etagMatch
  by_cases h0 : inm = ""
  · subst h0
    simp only [if_true, reduceIte]
    constructor
    · intro h
      exact absurd h (by decide)
    · rintro (h | ⟨cs, hcs, htrim⟩)
      · exact absurd h (by decide)
      · have : cs = [] := by
          have : splitOnCommaChars ("".data) = [[]] := rfl
          rw [this] at hcs
          simpa using hcs
        rw [this] at htrim
        rw [wtag_data] at htrim
        simp [trimSpaceChars] at htrim
  · by_cases h1 : inm = "*"
    · subst h1
      simp
    · rw [if_neg h0, if_neg h1]
      simp only [List.any_eq_true, beq_iff_eq]
      constructor
      · rintro ⟨cs, hcs, htrim⟩
        exact Or.inr ⟨cs, hcs, htrim⟩
      · rintro (h | ⟨cs, hcs, htrim⟩)
        · exact absurd h h1
        · exact ⟨cs, hcs, htrim⟩

/-! Claim theorems. -/

/-- C1 counterexample: on a stale incremental entry holding `old` whose
origin handler writes `new`, the middleware does not serve the stale bytes
and the origin handler does run on the request path, refuting the claim as
stated. -/
theorem C1_counterexample : ¬ C1spec c1Input := by
  intro h
  have h2 := h (by decide) (by decide) (by decide)
      { etag := "d1", stale := true, payload := [111, 108, 100] }
      (by decide) (by decide)
  have h4 : (CacheMiddleware c1Input).originOnPath = true := by decide
  rw [h2.2] at h4
  exact Bool.noConfusion h4

/-- C1 (amended): a GET hitting a stale entry under the incremental strategy
is handled like a miss: the origin handler runs synchronously on the request
path, its recorded status and body are delivered to the client, and a
recorded 200 body is re-cached; the stale bytes are not served and the
middleware makes no revalidation call. -/
theorem C1_stale_synchronous_rebuild (i : MWInput) (e : Entry)
    (hm : i.method = "GET") (hc : i.canonical ≠ "")
    (hs : i.strategy = "incremental")
    (hl : i.lookup = some e) (hstale : e.stale = true) :
    (CacheMiddleware i).originOnPath = true ∧
    (CacheMiddleware i).status = (recRun i.handlerOps).statusCode ∧
    (CacheMiddleware i).body = (recRun i.handlerOps).body ∧
    ((recRun i.handlerOps).statusCode = 200 →
      (CacheMiddleware i).setArg = some (recRun i.handlerOps).body) := by
  have hs1 : i.strategy ≠ "" := by rw [hs]; decide
  have hs2 : i.strategy ≠ "dynamic" := by rw [hs]; decide
  rw [cacheMiddleware_stale i e hm hc hl hstale]
  obtain ⟨ho, hst, hb, hset⟩ := missPath_spec i hs1 hs2
  exact ⟨ho, hst, hb, fun h200 => by rw [hset, if_pos h200]⟩

/-- C1 witness: the amended theorem applied to the concrete stale
incremental request of the counterexample. -/
theorem C1_stale_synchronous_rebuild_witness :
    (CacheMiddleware c1Input).originOnPath = true ∧
    (CacheMiddleware c1Input).status = (recRun c1Input.handlerOps).statusCode ∧
    (CacheMiddleware c1Input).body = (recRun c1Input.handlerOps).body ∧
    ((recRun c1Input.handlerOps).statusCode = 200 →
      (CacheMiddleware c1Input).setArg = some (recRun c1Input.handlerOps).body) :=
  C1_stale_synchronous_rebuild c1Input
    { etag := "d1", stale := true, payload := [111, 108, 100] }
    (by decide) (by decide) (by decide) (by decide) (by decide)

/-- C2 counterexample: a miss whose handler records a 200 with an empty body
still has Set invoked, refuting the claimed equivalence (which requires a
non-empty body). -/
theorem C2_counterexample : ¬ C2spec c2Input := by
  intro h
  have h2 := (h (by decide)).mp (by decide)
  exact h2.2 (by decide)

/-- C2 (amended): on the cache-miss path Set is invoked with the buffered
bytes exactly when the recorded status is 200; the middleware performs no
body-emptiness check, so a 200 response with a 0-byte body is cached too. -/
theorem C2_set_iff_status200 (i : MWInput) (h : onMissPath i) :
    (CacheMiddleware i).setArg =
      (if (recRun i.handlerOps).statusCode = 200
       then some (recRun i.handlerOps).body else none) := by
  obtain ⟨hm, hc, hl, hs1, hs2⟩ := h
  rw [cacheMiddleware_miss i hm hc hl]
  exact (missPath_spec i hs1 hs2).2.2.2

/-- C2 witness: the amended theorem applied to the concrete empty-body miss
of the counterexample. -/
theorem C2_set_iff_status200_witness :
    onMissPath c2Input ∧
    (CacheMiddleware c2Input).setArg =
      (if (recRun c2Input.handlerOps).statusCode = 200
       then some (recRun c2Input.handlerOps).body else none) :=
  ⟨by decide, C2_set_iff_status200 c2Input (by decide)⟩

/-- C3: on a fresh hit, an If-None-Match of `*` or containing the weak ETag
exactly (comma-split, whitespace-trimmed) yields 304 with the ETag header and
no body; otherwise the full cached body is served with 200. -/
theorem C3_fresh_hit_etag (i : MWInput) (e : Entry)
    (hm : i.method = "GET") (hc : i.canonical ≠ "")
    (hl : i.lookup = some e) (hfresh : e.stale = false) :
    ((i.ifNoneMatch = "*" ∨ ∃ cs ∈ splitOnCommaChars i.ifNoneMatch.data,
        trimSpaceChars cs = ("W/\"" ++ e.etag ++ "\"").data) →
      (CacheMiddleware i).status = 304 ∧ (CacheMiddleware i).body = [] ∧
      ("ETag", "W/\"" ++ e.etag ++ "\"") ∈ (CacheMiddleware i).headers) ∧
    (¬ (i.ifNoneMatch = "*" ∨ ∃ cs ∈ splitOnCommaChars i.ifNoneMatch.data,
        trimSpaceChars cs = ("W/\"" ++ e.etag ++ "\"").data) →
      (CacheMiddleware i).status = 200 ∧ (CacheMiddleware i).body = e.payload) := by
  rw [cacheMiddleware_fresh i e hm hc hl hfresh]
  constructor
  · intro hcond
    rw [if_pos ((etagMatch_eq_spec i.ifNoneMatch e.etag).mpr hcond)]
    exact ⟨rfl, rfl, by simp⟩
  · intro hcond
    rw [if_neg (fun hmatch =>
      hcond ((etagMatch_eq_spec i.ifNoneMatch e.etag).mp hmatch))]
    exact ⟨rfl, rfl⟩

/-- C3 witness: the theorem applied to a concrete fresh hit whose
If-None-Match carries exactly the entry's weak ETag. -/
theorem C3_fresh_hit_etag_witness :
    c3wInput.method = "GET" ∧ c3wInput.lookup = some c3wEntry ∧
    c3wEntry.stale = false ∧
    (((c3wInput.ifNoneMatch = "*" ∨
        ∃ cs ∈ splitOnCommaChars c3wInput.ifNoneMatch.data,
          trimSpaceChars cs = ("W/\"" ++ c3wEntry.etag ++ "\"").data) →
      (CacheMiddleware c3wInput).status = 304 ∧
      (CacheMiddleware c3wInput).body = [] ∧
      ("ETag", "W/\"" ++ c3wEntry.etag ++ "\"") ∈ (CacheMiddleware c3wInput).headers) ∧
    (¬ (c3wInput.ifNoneMatch = "*" ∨
        ∃ cs ∈ splitOnCommaChars c3wInput.ifNoneMatch.data,
          trimSpaceChars cs = ("W/\"" ++ c3wEntry.etag ++ "\"").data) →
      (CacheMiddleware c3wInput).status = 200 ∧
      (CacheMiddleware c3wInput).body = c3wEntry.payload)) :=
  ⟨rfl, rfl, rfl,
   C3_fresh_hit_etag c3wInput c3wEntry rfl (by decide) rfl rfl⟩

/-- C4: a webhook whose entity is post, category, tag or author marks stale
every entry whose strategy is static or incremental and leaves every other
entry (immutable ones in particular) unchanged. -/
theorem C4_entity_invalidation (p : WebhookPayload) (entries : List CacheEntry)
    (h : p.entity = "post" ∨ p.entity = "category" ∨ p.entity = "tag" ∨
         p.entity = "author") :
    (Handle "POST" (some p) entries).entries =
      entries.map (fun e =>
        if e.strategy = "static" ∨ e.strategy = "incremental" then
          { e with stale := true }
        else e) := by
  have hmap : (MarkStale entries "static" true).1 =
      entries.map (fun e =>
        if e.strategy = "static" ∨ e.strategy = "incremental" then
          { e with stale := true }
        else e) := by
    unfold MarkStale
    refine List.map_congr_left (fun e _ => ?_)
    by_cases h1 : e.strategy = "static" <;>
      by_cases h2 : e.strategy = "incremental" <;>
      simp [markStaleHits, h1, h2]
  rcases h with h | h | h | h <;> simp [Handle, h, hmap]

/-- C4 witness: the theorem applied to a `post` webhook over one entry of
each cacheable strategy. -/
theorem C4_entity_invalidation_witness :
    (c4wPayload.entity = "post" ∨ c4wPayload.entity = "category" ∨
     c4wPayload.entity = "tag" ∨ c4wPayload.entity = "author") ∧
    (Handle "POST" (some c4wPayload) c4wEntries).entries =
      c4wEntries.map (fun e =>
        if e.strategy = "static" ∨ e.strategy = "incremental" then
          { e with stale := true }
        else e) :=
  ⟨Or.inl rfl, C4_entity_invalidation c4wPayload c4wEntries (Or.inl rfl)⟩

/-- C5 counterexample: a cached miss-path response carries no X-Cache header
at all, refuting the claim that it carries `X-Cache: MISS`. -/
theorem C5_counterexample : ¬ C5spec c5Input := by
  intro h
  have h2 := h.1 (by decide) (by decide)
  exact absurd h2 (by decide)

/-- C5 (amended): only a response served from a fresh cache entry with a 200
carries an X-Cache header, whose value is HIT; a 304 response, a
stale-fallthrough response and a miss-path response carry no X-Cache header
at all, and the values STALE and MISS are never emitted. -/
theorem C5_xcache_headers (i : MWInput) (e : Entry) :
    (i.method = "GET" → i.canonical ≠ "" → i.lookup = some e →
      e.stale = false →
      etagMatch i.ifNoneMatch ("W/\"" ++ e.etag ++ "\"") = false →
      ("X-Cache", "HIT") ∈ (CacheMiddleware i).headers) ∧
    (i.lookup = some e → e.stale = false →
      etagMatch i.ifNoneMatch ("W/\"" ++ e.etag ++ "\"") = true →
      ∀ v, ("X-Cache", v) ∉ (CacheMiddleware i).headers) ∧
    (i.lookup = some e → e.stale = true →
      ∀ v, ("X-Cache", v) ∉ (CacheMiddleware i).headers) ∧
    (i.lookup = none →
      ∀ v, ("X-Cache", v) ∉ (CacheMiddleware i).headers) ∧
    (∀ v, ("X-Cache", v) ∈ (CacheMiddleware i).headers → v = "HIT") := by
  refine ⟨?_, ?_, ?_, ?_, ?_⟩
  · intro hm hc hl hfresh hnomatch
    rw [cacheMiddleware_fresh i e hm hc hl hfresh, if_neg (by simp [hnomatch])]
    simp
  · intro hl _ hmatch v hmem
    obtain ⟨-, -, -, e2, hl2, -, hnomatch2⟩ := xcache_member_fresh_serve i v hmem
    rw [hl] at hl2
    cases hl2
    rw [hmatch] at hnomatch2
    exact Bool.noConfusion hnomatch2
  · intro hl hstale v hmem
    obtain ⟨-, -, -, e2, hl2, hfresh2, -⟩ := xcache_member_fresh_serve i v hmem
    rw [hl] at hl2
    cases hl2
    rw [hstale] at hfresh2
    exact Bool.noConfusion hfresh2
  · intro hl v hmem
    obtain ⟨-, -, -, e2, hl2, -, -⟩ := xcache_member_fresh_serve i v hmem
    rw [hl] at hl2
    exact Option.noConfusion hl2
  · intro v hmem
    exact (xcache_member_fresh_serve i v hmem).1

/-- C5 witness: the amended theorem applied to a concrete fresh hit served
with HIT, to the same entry answered 304, and on the miss side to the
counterexample's request. -/
theorem C5_xcache_headers_witness :
    ("X-Cache", "HIT") ∈ (CacheMiddleware c5wInput).headers ∧
    (∀ v, ("X-Cache", v) ∉ (CacheMiddleware c5w304Input).headers) ∧
    ("X-Cache", "MISS") ∉ (CacheMiddleware c5Input).headers :=
  ⟨(C5_xcache_headers c5wInput c5wEntry).1 rfl (by decide) rfl rfl (by decide),
   (C5_xcache_headers c5w304Input c5wEntry).2.1 rfl rfl (by decide),
   (C5_xcache_headers c5Input c5wEntry).2.2.2.1 rfl "MISS"⟩

/-- C6: on the cache-miss path the client receives exactly the recorded
status and body, whatever result cacheManager.Set returns; a store failure
never alters or suppresses the delivered response. -/
theorem C6_delivery_unaffected_by_set (i : MWInput)
    (res : Except String Unit) (h : onMissPath i) :
    (CacheMiddleware { i with setResult := res }).status =
      (recRun i.handlerOps).statusCode ∧
    (CacheMiddleware { i with setResult := res }).body =
      (recRun i.handlerOps).body := by
  obtain ⟨hm, hc, hl, hs1, hs2⟩ := h
  rw [cacheMiddleware_miss { i with setResult := res } hm hc hl]
  obtain ⟨-, hst, hb, -⟩ := missPath_spec { i with setResult := res } hs1 hs2
  exact ⟨hst, hb⟩

/-- C6 witness: the theorem applied to a concrete miss whose store write
fails with `disk full`; the delivered response is still the handler's. -/
theorem C6_delivery_unaffected_by_set_witness :
    onMissPath c6wInput ∧
    (CacheMiddleware { c6wInput with setResult := Except.error "disk full" }).status =
      (recRun c6wInput.handlerOps).statusCode ∧
    (CacheMiddleware { c6wInput with setResult := Except.error "disk full" }).body =
      (recRun c6wInput.handlerOps).body :=
  ⟨by decide,
   C6_delivery_unaffected_by_set c6wInput (Except.error "disk full") (by decide)⟩

/-- C7 counterexample: a successful clear-cache run over one entry file and a
one-entry in-memory Index leaves the Index untouched, refuting the claim
that the Index ends up empty. -/
theorem C7_counterexample : ¬ C7spec c7Input := by
  intro h
  have h2 := (h 1 rfl).2
  exact absurd h2 (by decide)

/-- C7 (amended): a successful clear-cache run over an existing cache
directory removes every entry file and reports their count; the command
holds no reference to the in-memory Index, which is left unchanged rather
than emptied. -/
theorem C7_clear_cache_files_removed (s : ClearCacheState)
    (h : s.dirExists = true) :
    (clearCacheRun s).1 = .ok s.files.length ∧
    (clearCacheRun s).2.files = [] ∧
    (clearCacheRun s).2.index = s.index := by
  simp [clearCacheRun, h]

/-- C7 witness: the amended theorem applied to the counterexample's state. -/
theorem C7_clear_cache_files_removed_witness :
    c7Input.dirExists = true ∧
    (clearCacheRun c7Input).1 = .ok c7Input.files.length ∧
    (clearCacheRun c7Input).2.files = [] ∧
    (clearCacheRun c7Input).2.index = c7Input.index :=
  ⟨rfl, C7_clear_cache_files_removed c7Input rfl⟩

/-- C8 counterexample: no cap bounds the recorder's buffered body, refuting
the claim; for any candidate cap a single write of cap+1 bytes is buffered in
full. -/
theorem C8_counterexample : ¬ C8spec := by
  rintro ⟨cap, hbound, -⟩
  have h := hbound [.write (List.replicate (cap + 1) 0)]
  simp [recRun, recStep, recInit] at h

/-- C8 (amended): the recorder is uncapped, buffering every written byte, and
on the cache-miss path a recorded 200 response is cached whatever its size,
the full buffered body being passed to Set and delivered to the client. -/
theorem C8_unbounded_recorder (i : MWInput) (h : onMissPath i)
    (h200 : (recRun i.handlerOps).statusCode = 200) :
    (recRun i.handlerOps).body = (i.handlerOps.map recOpBytes).flatten ∧
    (CacheMiddleware i).setArg = some (recRun i.handlerOps).body ∧
    (CacheMiddleware i).body = (recRun i.handlerOps).body := by
  obtain ⟨hm, hc, hl, hs1, hs2⟩ := h
  refine ⟨by simpa [recRun, recInit] using recFoldl_body i.handlerOps recInit, ?_, ?_⟩
  · rw [cacheMiddleware_miss i hm hc hl, (missPath_spec i hs1 hs2).2.2.2,
      if_pos h200]
  · rw [cacheMiddleware_miss i hm hc hl]
    exact (missPath_spec i hs1 hs2).2.2.1

/-- C8 witness: the amended theorem applied to a concrete two-write miss. -/
theorem C8_unbounded_recorder_witness :
    onMissPath c8wInput ∧ (recRun c8wInput.handlerOps).statusCode = 200 ∧
    ((recRun c8wInput.handlerOps).body =
        (c8wInput.handlerOps.map recOpBytes).flatten ∧
      (CacheMiddleware c8wInput).setArg = some (recRun c8wInput.handlerOps).body ∧
      (CacheMiddleware c8wInput).body = (recRun c8wInput.handlerOps).body) :=
  ⟨by decide, by decide, C8_unbounded_recorder c8wInput (by decide) (by decide)⟩

/-- C9: a POST webhook whose body fails to decode answers 400 with the
`invalid payload` error body and leaves every cache entry untouched; a
non-POST request answers 405, likewise leaving every entry untouched. -/
theorem C9_webhook_rejection (method : String) (payload : Option WebhookPayload)
    (entries : List CacheEntry) :
    (method = "POST" →
      (Handle method none entries).status = 400 ∧
      (Handle method none entries).body = .invalidPayload ∧
      (Handle method none entries).entries = entries) ∧
    (method ≠ "POST" →
      (Handle method payload entries).status = 405 ∧
      (Handle method payload entries).entries = entries) := by
  constructor
  · intro h
    subst h
    simp [Handle]
  · intro h
    simp [Handle, h]

/-- C9 witness: the theorem applied to a concrete undecodable POST and to a
concrete GET. -/
theorem C9_webhook_rejection_witness :
    ((Handle "POST" none c9wEntries).status = 400 ∧
      (Handle "POST" none c9wEntries).body = .invalidPayload ∧
      (Handle "POST" none c9wEntries).entries = c9wEntries) ∧
    ((Handle "GET" (some c9wPayload) c9wEntries).status = 405 ∧
      (Handle "GET" (some c9wPayload) c9wEntries).entries = c9wEntries) :=
  ⟨(C9_webhook_rejection "POST" none c9wEntries).1 rfl,
   (C9_webhook_rejection "GET" (some c9wPayload) c9wEntries).2 (by decide)⟩

/-- C10: the recorded status code is the argument of the first WriteHeader
call, or 200 when a Write precedes every WriteHeader or no WriteHeader
occurs — later WriteHeader calls never change it — and the recorded body is
the concatenation of all Write payloads in order. -/
theorem C10_recorder_semantics (ops : List RecOp) :
    (recRun ops).statusCode =
      (match ops with
       | RecOp.writeHeader sc :: _ => sc
       | _ => 200) ∧
    (recRun ops).body = (ops.map recOpBytes).flatten := by
  refine ⟨?_, by simpa [recRun, recInit] using recFoldl_body ops recInit⟩
  match ops with
  | [] => rfl
  | RecOp.writeHeader sc :: rest =>
      have hstep : recStep recInit (RecOp.writeHeader sc) =
          { statusCode := sc, wroteHeader := true, body := [] } := by
        simp [recStep, recInit]
      simp only [recRun, List.foldl_cons, hstep]
      exact recFoldl_statusCode rest _ rfl
  | RecOp.write b :: rest =>
      have hstep : recStep recInit (RecOp.write b) =
          { statusCode := 200, wroteHeader := true, body := b } := by
        simp [recStep, recInit]
      simp only [recRun, List.foldl_cons, hstep]
      exact recFoldl_statusCode rest _ rfl

end Statigo
